import Mathlib

/-!
Shallow embedding of the iterative beam-optimization control loop of
`library/OptimizationOperations.py`: the grid schedule
(`make_variable_grid_list`), the delivery-time reduction machinery
(`compute_delivery_time`, `update_delivery_time` and the `reduce_time`
loop inside `optimize_plan`), the objective-history recording, the
modulation-reduction step, the oracle wrapper (`run_optimization`) and
the per-technique constraint preparation performed by `optimize_plan`
before the first oracle call.

Real-valued quantities of the source (delivery times, objective values,
grid sizes, modulation factors) are modelled as rationals; the floating
literal `0.9` is modelled as `9/10` and the cold-start sentinel `1e10`
as `10 ^ 10`.
-/

namespace OptimizationOperations

/-! ### Grid scheduling (`make_variable_grid_list`, lines 265-312) -/

/-- The `variable_dose_grid` dictionary built by `optimize_plan`:
four grid sizes (`delta_grid`) and four adjustment iterations
(`grid_adjustment_iteration`). -/
structure VariableDoseGrid where
  delta_grid : Fin 4 → ℚ
  grid_adjustment_iteration : Fin 4 → ℕ

/-- `make_variable_grid_list(n_iterations, variable_dose_grid)`:
`n_iterations` 1 to 4 are hard coded prefixes of `delta_grid`; above 4
the schedule places `delta_grid[j]` at `grid_adjustment_iteration[j]`
(first match wins) and `0` elsewhere. -/
def make_variable_grid_list (n_iterations : ℕ)
    (variable_dose_grid : VariableDoseGrid) : List ℚ :=
  if n_iterations = 1 then
    [variable_dose_grid.delta_grid 3]
  else if n_iterations = 2 then
    [variable_dose_grid.delta_grid 0,
     variable_dose_grid.delta_grid 3]
  else if n_iterations = 3 then
    [variable_dose_grid.delta_grid 0,
     variable_dose_grid.delta_grid 2,
     variable_dose_grid.delta_grid 3]
  else if n_iterations = 4 then
    [variable_dose_grid.delta_grid 0,
     variable_dose_grid.delta_grid 1,
     variable_dose_grid.delta_grid 2,
     variable_dose_grid.delta_grid 3]
  else
    (List.range n_iterations).map fun iteration =>
      if iteration = variable_dose_grid.grid_adjustment_iteration 0 then
        variable_dose_grid.delta_grid 0
      else if iteration = variable_dose_grid.grid_adjustment_iteration 1 then
        variable_dose_grid.delta_grid 1
      else if iteration = variable_dose_grid.grid_adjustment_iteration 2 then
        variable_dose_grid.delta_grid 2
      else if iteration = variable_dose_grid.grid_adjustment_iteration 3 then
        variable_dose_grid.delta_grid 3
      else 0

/-- The `grid_adjustment_iteration` list computed by `optimize_plan`
(lines 1299-1302): `[0, n/2, 3n/4, n-1]` with integer division. -/
def grid_adjustment_iterations (maximum_iteration : ℕ) : Fin 4 → ℕ
  | 0 => 0
  | 1 => maximum_iteration / 2
  | 2 => 3 * maximum_iteration / 4
  | 3 => maximum_iteration - 1

/-- The schedule computed by `optimize_plan` under `vary_grid` (lines
1294-1303): `make_variable_grid_list` applied to the four dose
dimensions and the driver's adjustment iterations. -/
def driver_grid_schedule (maximum_iteration : ℕ) (delta : Fin 4 → ℚ) : List ℚ :=
  make_variable_grid_list maximum_iteration
    ⟨delta, grid_adjustment_iterations maximum_iteration⟩

/-- Observable events of the main iteration loop of `optimize_plan`
(lines 1683-1813): dose-grid changes and oracle invocations. -/
inductive DriverEvent
  | gridChange (size : ℚ)
  | oracleCall
  deriving DecidableEq

/-- Trace of the main iteration loop (`while optimization_iteration !=
maximum_iteration`) with `reduce_mod = False`: at each iteration, if
`vary_grid` and the schedule entry is non-zero the dose grid is changed,
then the oracle is invoked once. -/
def iteration_driver_trace (vary_grid : Bool) (change_dose_grid : List ℚ)
    (maximum_iteration : ℕ) : List DriverEvent :=
  (List.range maximum_iteration).flatMap fun i =>
    (if vary_grid = true ∧ change_dose_grid.getD i 0 ≠ 0 then
      [DriverEvent.gridChange (change_dose_grid.getD i 0)]
    else []) ++ [DriverEvent.oracleCall]

/-! ### Delivery-time computation (`compute_delivery_time`, lines 1040-1048) -/

/-- `compute_delivery_time(beam_settings, previous, current, bypass_check)`:
`beam_settings.TomoPropertiesPerBeam.MaxDeliveryTime` is passed as
`old_delivery_time`.  Returns `0.9 * old` when the objective improved and
the time is above 60 s, or when `bypass_check`; otherwise the old time. -/
def compute_delivery_time (old_delivery_time previous_objective_value
    current_objective_value : ℚ) (bypass_check : Bool) : ℚ :=
  if previous_objective_value > current_objective_value ∧
      old_delivery_time > 60 then
    9/10 * old_delivery_time
  else if bypass_check = true then
    9/10 * old_delivery_time
  else
    old_delivery_time

/-- Result of `update_delivery_time` (lines 1051-1091): the returned
`delivery_time` and `continue_reduction`, together with the
`max_delivery_time` value passed to
`BeamOperations.modify_tomo_beam_properties` (`none` when the beam is
left untouched). -/
structure UpdateDeliveryTimeResult where
  delivery_time : ℚ
  continue_reduction : Bool
  committed : Option ℚ
  deriving DecidableEq

/-- `update_delivery_time(plan, beamset, previous, old, bypass_check,
reset_time)`.  `beam_max_delivery_time` is the current
`MaxDeliveryTime` of the first beam (read inside
`compute_delivery_time`) and `current_objective_value` the value
returned by `get_current_objective_value`. -/
def update_delivery_time (beam_max_delivery_time previous_objective_value
    current_objective_value old_delivery_time : ℚ)
    (bypass_check reset_time : Bool) : UpdateDeliveryTimeResult :=
  let new_delivery_time := compute_delivery_time beam_max_delivery_time
    previous_objective_value current_objective_value bypass_check
  if bypass_check = true then
    ⟨new_delivery_time, true, some new_delivery_time⟩
  else if new_delivery_time < old_delivery_time then
    ⟨new_delivery_time, true, some new_delivery_time⟩
  else if reset_time = true then
    ⟨old_delivery_time, true, some old_delivery_time⟩
  else
    ⟨old_delivery_time, false, none⟩

/-! ### The `reduce_time` bounded search (lines 1834-1893) -/

/-- `max_reduce_time_iterations` (line 1220). -/
def max_reduce_time_iterations : ℕ := 6

/-- State of the time-reduction search: the beam `MaxDeliveryTime`,
the last persisted (`patient.Save()`) delivery time and objective, the
running `previous_objective_function`, the log of values committed via
`modify_tomo_beam_properties` (most recent last), the loop counter
`reduce_time_iteration` and the number of executed loop bodies. -/
structure TRState where
  beam_time : ℚ
  saved_time : ℚ
  prev_obj : ℚ
  saved_obj : ℚ
  committed : List ℚ
  iter : ℕ
  bodies : ℕ
  deriving DecidableEq

/-- Initialization of the `reduce_time` phase (lines 1834-1853):
`patient.Save()` (persisting delivery time `t0` and objective `obj0`),
then `update_delivery_time(..., bypass_check=True)` with
`previous_objective_function = get_current_objective_value = obj0` and
`old_delivery_time = initial_time = t0`. -/
def reduce_time_init (t0 obj0 : ℚ) : TRState :=
  let r := update_delivery_time t0 obj0 obj0 t0 true false
  { beam_time := r.committed.getD t0
    saved_time := t0
    prev_obj := obj0
    saved_obj := obj0
    committed := r.committed.toList
    iter := 0
    bodies := 0 }

/-- One body of the `while reduce_time_iteration <=
max_reduce_time_iterations` loop (lines 1855-1890).  `cur` is the
objective value produced by this body's oracle run.  On
`continue_reduction` the new time is persisted and the counter is
incremented; otherwise the last persisted state is reloaded, the
delivery time is re-committed via `update_delivery_time(...,
reset_time=True)` and the counter jumps past the cap. -/
def reduce_time_step (s : TRState) (cur : ℚ) : TRState :=
  let old := s.beam_time
  let r := update_delivery_time s.beam_time s.prev_obj cur old false false
  if r.continue_reduction = true then
    { beam_time := r.committed.getD s.beam_time
      saved_time := r.committed.getD s.beam_time
      prev_obj := cur
      saved_obj := cur
      committed := s.committed ++ r.committed.toList
      iter := s.iter + 1
      bodies := s.bodies + 1 }
  else
    let rb := update_delivery_time s.saved_time s.saved_obj s.saved_obj old
      false true
    { beam_time := rb.committed.getD s.saved_time
      saved_time := s.saved_time
      prev_obj := s.saved_obj
      saved_obj := s.saved_obj
      committed := s.committed ++ rb.committed.toList
      iter := max_reduce_time_iterations + 1
      bodies := s.bodies + 1 }

/-- The bounded search loop: each body consumes one oracle objective
value from `objs`; the loop runs while `reduce_time_iteration <=
max_reduce_time_iterations`. -/
def reduce_time_loop : List ℚ → TRState → TRState
  | [], s => s
  | cur :: rest, s =>
    if s.iter ≤ max_reduce_time_iterations then
      reduce_time_loop rest (reduce_time_step s cur)
    else s

/-! ### Objective recording (`parse_culmulative_objective_value`,
lines 885-893, and its use at lines 1689-1701) -/

/-- `parse_culmulative_objective_value(plan, beamset, prior_history)`:
`obj` is the oracle's `ProgressOfOptimization.ObjectiveValues` array;
with a prior history the two are concatenated, otherwise `obj` itself
is returned. -/
def parse_culmulative_objective_value (obj : List ℚ) :
    Option (List ℚ) → List ℚ
  | some prior_history => prior_history ++ obj
  | none => obj

/-- The cold-start sentinel `1e10`. -/
def cold_start_sentinel : ℚ := 10 ^ 10

/-- The objective-recording step at the top of each driver iteration
(lines 1689-1701).  `progress` is `none` when
`plan_optimization.ProgressOfOptimization` is absent, `some none` when
it exists but its `Iterations` is `None`, and `some (some obj)` when it
carries the cumulative objective array `obj`.  Returns the
`previous_objective_function` value (`none` models the Python
`IndexError` on an empty history) and the updated `prior_history`. -/
def record_previous_objective :
    Option (Option (List ℚ)) → Option (List ℚ) → Option ℚ × Option (List ℚ)
  | some (some obj), prior_history =>
    let history := parse_culmulative_objective_value obj prior_history
    (history.getLast?, some history)
  | some none, prior_history => (some cold_start_sentinel, prior_history)
  | none, prior_history => (some cold_start_sentinel, prior_history)

/-! ### The oracle wrapper (`run_optimization`, lines 1122-1144) -/

/-- Outcome of `plan_optimization.RunOptimization()`: success, an
exception carrying a `.Message` sequence of strings, or an exception
without a `.Message` attribute (handled by the inner `except`). -/
inductive OracleOutcome
  | ok
  | errWithMessage (parts : List String)
  | errPlain (text : String)

/-- Substring occurrence on character lists (the Python `in` operator). -/
def list_has_sub (pat : List Char) : List Char → Bool
  | [] => pat.isPrefixOf ([] : List Char)
  | c :: cs => pat.isPrefixOf (c :: cs) || list_has_sub pat cs

/-- Substring occurrence on strings. -/
def str_has_sub (s pat : String) : Bool :=
  list_has_sub pat.toList s.toList

/-- The substring matched by `run_optimization`. -/
def gantry_period_sub : String := "There is no feasible gantry period"

/-- `run_optimization(plan_optimization)`: on success returns the two
timestamps, `True` and a success message; on failure returns `None`
timestamps, `False` and a message classified by substring matching on
the joined exception message. -/
def run_optimization (outcome : OracleOutcome) (time_0 time_1 : ℕ) :
    Option ℕ × Option ℕ × Bool × String :=
  match outcome with
  | .ok => (some time_0, some time_1, true, "Optimization Success")
  | .errWithMessage parts =>
    let error_message := String.join parts
    if str_has_sub error_message gantry_period_sub = true then
      (none, none, false,
        "No feasible gantry period found. Full message: " ++ error_message)
    else
      (none, none, false,
        "Exception occurred during optimization: " ++ error_message)
  | .errPlain text =>
    (none, none, false, "Exception occurred during optimization: " ++ text)

/-- The driver reaction to an oracle result (lines 1774-1776 and
1857-1859): `sys.exit(message)` when `success` is false, modelled as
`Except.error message`. -/
def driver_oracle_step (outcome : OracleOutcome) (time_0 time_1 : ℕ) :
    Except String (ℕ × ℕ) :=
  let r := run_optimization outcome time_0 time_1
  if r.2.2.1 = true then Except.ok (time_0, time_1) else Except.error r.2.2.2

/-! ### Modulation reduction (lines 1728-1762) -/

/-- The per-iteration modulation-reduction computation for a helical
beam (lines 1736-1758): compute the ratio of target to current
modulation factor; when below one, shrink the delivery time by that
ratio damped by `0.9`, and when this happens on the last scheduled
iteration extend `maximum_iteration` by one.  Returns the committed
delivery time and the new `maximum_iteration`. -/
def modulation_adjust (old_delivery_time mod_target mod_factor : ℚ)
    (optimization_iteration maximum_iteration : ℕ) : ℚ × ℕ :=
  let mod_r := mod_target / mod_factor
  if mod_r < 1 then
    let new_delivery_time := old_delivery_time * mod_r * (9/10)
    (new_delivery_time,
      if optimization_iteration = maximum_iteration - 1 then
        maximum_iteration + 1
      else maximum_iteration)
  else (old_delivery_time, maximum_iteration)

/-- The driver gating of modulation reduction (lines 1732-1733):
it runs only when `reduce_mod` is set, the iteration index is positive
and the technique is helical. -/
def reduce_mod_step (reduce_mod helical : Bool)
    (optimization_iteration : ℕ) (old_delivery_time mod_target mod_factor : ℚ)
    (maximum_iteration : ℕ) : ℚ × ℕ :=
  if reduce_mod = true ∧ 0 < optimization_iteration ∧ helical = true then
    modulation_adjust old_delivery_time mod_target mod_factor
      optimization_iteration maximum_iteration
  else (old_delivery_time, maximum_iteration)

/-! ### Constraint preparation (lines 1538-1683)

Per-beam settings mutated by `optimize_plan` before the first oracle
call: treat margins, beam-split permission, TrueBeamSTx jaw limits and
the final arc gantry spacing. -/

/-- Per-beam mutable settings (`BeamSettings` / `ForBeam` in the host
data model).  `finalArcGantrySpacing` is `none` when
`ArcConversionPropertiesPerBeam` is `None`. -/
structure BeamSettings where
  beamMU : ℚ
  margins : Option ℚ
  allowBeamSplit : Bool
  jawLimit : Option (List ℚ)
  finalArcGantrySpacing : Option ℚ
  deriving DecidableEq

/-- The delivery technique of a treatment setup. -/
inductive Technique
  | TomoHelical
  | SMLC
  | DynamicArc
  deriving DecidableEq

/-- The TrueBeamSTx hard jaw limit `[-20, 20, -10.8, 10.8]`. -/
def stx_jaw_limit : List ℚ := [-20, 20, -54/5, 54/5]

/-- The restart message returned by all three abort sites. -/
def restart_message : String :=
  "Restart Required: Select reset beams on next run of script."

/-- Modelled from the spec: `BeamOperations.check_beam_limits` is not
under `src/`.  Per section 4.3, the TrueBeamSTx jaw limit is applied
(`change=True`) to beams with zero delivered MU, and a beam that
already carries delivered MU cannot be retrofitted: the check fails and
the beam is left untouched. -/
def check_beam_limits (limit : List ℚ) (b : BeamSettings) :
    Bool × BeamSettings :=
  if b.beamMU > 0 then (false, b)
  else (true, { b with jawLimit := some limit })

/-- Treat-margin application (lines 1543-1555 for SMLC, 1616-1627 for
DynamicArc): when `use_treat_settings`, each beam with zero delivered
MU receives the treat margins; beams with delivered MU are skipped. -/
def apply_treat_margins (use_treat_settings : Bool) (m : ℚ)
    (beams : List BeamSettings) : List BeamSettings :=
  if use_treat_settings = true then
    beams.map fun b =>
      if b.beamMU > 0 then b else { b with margins := some m }
  else beams

/-- Beam-split preference (lines 1557-1565, SMLC only): beams with zero
delivered MU get `AllowBeamSplit = allow_beam_split = False`. -/
def apply_beam_split (beams : List BeamSettings) : List BeamSettings :=
  beams.map fun b =>
    if b.beamMU > 0 then b else { b with allowBeamSplit := false }

/-- Prepend a processed beam onto a loop result, preserving whether the
remaining loop aborted. -/
def except_cons (b : BeamSettings) :
    Except (List BeamSettings) (List BeamSettings) →
    Except (List BeamSettings) (List BeamSettings)
  | Except.ok l => Except.ok (b :: l)
  | Except.error l => Except.error (b :: l)

/-- The TrueBeamSTx jaw-limit loop (lines 1590-1613 and 1656-1678):
each beam in turn goes through `check_beam_limits(change=True)`; the
first failure aborts with the restart message, keeping the remaining
beams unprocessed. -/
def jaw_limit_loop : List BeamSettings →
    Except (List BeamSettings) (List BeamSettings)
  | [] => Except.ok []
  | b :: rest =>
    let r := check_beam_limits stx_jaw_limit b
    if r.1 = true then except_cons r.2 (jaw_limit_loop rest)
    else Except.error (r.2 :: rest)

/-- The arc gantry-spacing loop (lines 1630-1650, DynamicArc only):
a beam whose `FinalArcGantrySpacing` exceeds 2 degrees is forced to 2
when it has no delivered MU; with delivered MU the loop aborts with the
restart message. -/
def gantry_spacing_loop : List BeamSettings →
    Except (List BeamSettings) (List BeamSettings)
  | [] => Except.ok []
  | b :: rest =>
    match b.finalArcGantrySpacing with
    | some sp =>
      if sp > 2 then
        if b.beamMU > 0 then Except.error (b :: rest)
        else except_cons { b with finalArcGantrySpacing := some 2 }
          (gantry_spacing_loop rest)
      else except_cons b (gantry_spacing_loop rest)
    | none => except_cons b (gantry_spacing_loop rest)

/-- SMLC preparation (lines 1542-1613): treat margins, beam-split
preferences, then (under `use_treat_settings` on a TrueBeamSTx
machine) the jaw-limit loop. -/
def smlc_prep (use_treat_settings machine_is_stx : Bool) (m : ℚ)
    (beams : List BeamSettings) :
    Except (List BeamSettings) (List BeamSettings) :=
  let bs1 := apply_treat_margins use_treat_settings m beams
  let bs2 := apply_beam_split bs1
  if use_treat_settings = true ∧ machine_is_stx = true then
    jaw_limit_loop bs2
  else Except.ok bs2

/-- DynamicArc preparation (lines 1614-1678): treat margins, the
gantry-spacing loop, then (on TrueBeamSTx under `use_treat_settings`)
the jaw-limit loop. -/
def dynamic_arc_prep (use_treat_settings machine_is_stx : Bool) (m : ℚ)
    (beams : List BeamSettings) :
    Except (List BeamSettings) (List BeamSettings) :=
  let bs1 := apply_treat_margins use_treat_settings m beams
  match gantry_spacing_loop bs1 with
  | Except.error bs2 => Except.error bs2
  | Except.ok bs2 =>
    if machine_is_stx = true ∧ use_treat_settings = true then
      jaw_limit_loop bs2
    else Except.ok bs2

/-- Technique dispatch of the constraint preparation (line 1538ff):
helical setups are left untouched. -/
def constraint_prep (tech : Technique) (use_treat_settings machine_is_stx : Bool)
    (m : ℚ) (beams : List BeamSettings) :
    Except (List BeamSettings) (List BeamSettings) :=
  match tech with
  | Technique.TomoHelical => Except.ok beams
  | Technique.SMLC => smlc_prep use_treat_settings machine_is_stx m beams
  | Technique.DynamicArc => dynamic_arc_prep use_treat_settings machine_is_stx m beams

/-- The preparation phase followed by the iteration loop: on a
preparation abort `optimize_plan` returns `(False, restart_message)`
with zero oracle invocations; otherwise the loop performs one oracle
call per scheduled iteration.  The result records success, the message,
the beam settings as left behind, and the number of oracle calls. -/
def optimize_plan_phase (tech : Technique)
    (use_treat_settings machine_is_stx : Bool) (m : ℚ)
    (beams : List BeamSettings) (n_iterations : ℕ) :
    Bool × String × List BeamSettings × ℕ :=
  match constraint_prep tech use_treat_settings machine_is_stx m beams with
  | Except.error bs => (false, restart_message, bs, 0)
  | Except.ok bs => (true, "", bs, n_iterations)

/-! ## Helper lemmas -/

/-- A concrete grid-size assignment `[0.5, 0.4, 0.3, 0.2]` (the default
`dose_dim1..dose_dim4`). -/
def example_delta : Fin 4 → ℚ
  | 0 => 1/2
  | 1 => 2/5
  | 2 => 3/10
  | 3 => 1/5

theorem compute_delivery_time_bypass (old prev cur : ℚ) :
    compute_delivery_time old prev cur true = 9/10 * old := by
  unfold compute_delivery_time
  split <;> simp

theorem update_delivery_time_bypass (bt prev cur old : ℚ) :
    update_delivery_time bt prev cur old true false
      = ⟨9/10 * bt, true, some (9/10 * bt)⟩ := by
  simp [update_delivery_time, compute_delivery_time_bypass]

theorem reduce_time_init_eq (t0 obj0 : ℚ) :
    reduce_time_init t0 obj0 = ⟨9/10 * t0, t0, obj0, obj0, [9/10 * t0], 0, 0⟩ := by
  simp [reduce_time_init, update_delivery_time_bypass]

/-! ## Claim theorems -/

/-- C3: on a cold start (`ProgressOfOptimization` absent, or present
with `Iterations = None`) the objective-recording step returns the
sentinel `1e10` and leaves the history unchanged; with progress data
the cumulative objective array is concatenated onto the history and its
last element is returned. -/
theorem objective_record_spec :
    (∀ ph, record_previous_objective none ph = (some cold_start_sentinel, ph))
    ∧ (∀ ph, record_previous_objective (some none) ph
        = (some cold_start_sentinel, ph))
    ∧ (∀ obj ph, record_previous_objective (some (some obj)) (some ph)
        = ((ph ++ obj).getLast?, some (ph ++ obj)))
    ∧ (∀ (obj ph : List ℚ), obj ≠ [] →
        (ph ++ obj).getLast? = obj.getLast?
        ∧ ((ph ++ obj).getLast?).isSome = true) := by
  refine ⟨fun ph => rfl, fun ph => rfl, fun obj ph => rfl, fun obj ph h => ?_⟩
  refine ⟨List.getLast?_append_of_ne_nil ph h, ?_⟩
  rw [List.getLast?_append_of_ne_nil ph h]
  simpa [List.getLast?_isSome] using h

theorem objective_record_spec_witness :
    ([3] : List ℚ) ≠ []
    ∧ (([7] : List ℚ) ++ [3]).getLast? = ([3] : List ℚ).getLast?
    ∧ ((([7] : List ℚ) ++ [3]).getLast?).isSome = true :=
  ⟨by decide, (objective_record_spec.2.2.2 [3] [7] (by decide)).1,
    (objective_record_spec.2.2.2 [3] [7] (by decide)).2⟩

/-- C6: with `bypass_check=False`, `compute_delivery_time` returns
`0.9 * old_delivery_time` exactly when the objective improved and the
current time exceeds 60 seconds, and the unchanged time otherwise. -/
theorem compute_delivery_time_spec (old_delivery_time previous_objective_value
    current_objective_value : ℚ) :
    (previous_objective_value > current_objective_value →
      old_delivery_time > 60 →
      compute_delivery_time old_delivery_time previous_objective_value
        current_objective_value false = 9/10 * old_delivery_time)
    ∧ (¬ (previous_objective_value > current_objective_value ∧
          old_delivery_time > 60) →
      compute_delivery_time old_delivery_time previous_objective_value
        current_objective_value false = old_delivery_time) := by
  constructor
  · intro h1 h2
    simp [compute_delivery_time, h1, h2]
  · intro h
    simp only [compute_delivery_time, if_neg h]
    simp

theorem compute_delivery_time_spec_witness :
    ((5 : ℚ) > 4 ∧ (100 : ℚ) > 60
      ∧ compute_delivery_time 100 5 4 false = 9/10 * 100)
    ∧ (¬ ((3 : ℚ) > 4 ∧ (100 : ℚ) > 60)
      ∧ compute_delivery_time 100 3 4 false = 100) :=
  ⟨⟨by decide, by decide,
      (compute_delivery_time_spec 100 5 4).1 (by decide) (by decide)⟩,
    ⟨by decide, (compute_delivery_time_spec 100 3 4).2 (by decide)⟩⟩

/-- C8: for a helical iteration `i > 0` with `reduce_mod`, the driver
computes the modulation ratio; when below one the delivery time becomes
`old * ratio * 0.9`, and when this happens on the last scheduled
iteration `maximum_iteration` grows by one so the loop (condition
`optimization_iteration != maximum_iteration`) runs one more pass. -/
theorem modulation_reduction_spec (t mod_target mod_factor : ℚ) (i m : ℕ)
    (hi : 0 < i) :
    (mod_target / mod_factor < 1 →
      (reduce_mod_step true true i t mod_target mod_factor m).1
        = t * (mod_target / mod_factor) * (9/10)
      ∧ (i = m - 1 →
          (reduce_mod_step true true i t mod_target mod_factor m).2 = m + 1
          ∧ i + 1 ≠ m + 1)
      ∧ (i ≠ m - 1 →
          (reduce_mod_step true true i t mod_target mod_factor m).2 = m))
    ∧ (¬ mod_target / mod_factor < 1 →
      reduce_mod_step true true i t mod_target mod_factor m = (t, m)) := by
  constructor
  · intro hr
    have hchar : reduce_mod_step true true i t mod_target mod_factor m
        = (t * (mod_target / mod_factor) * (9/10),
            if i = m - 1 then m + 1 else m) := by
      simp [reduce_mod_step, modulation_adjust, hi, hr]
    refine ⟨by rw [hchar], fun hlast => ⟨?_, by omega⟩, fun hlast => ?_⟩
    · rw [hchar]
      simp [hlast]
    · rw [hchar]
      simp [hlast]
  · intro hr
    simp [reduce_mod_step, modulation_adjust, hi, hr]

theorem modulation_reduction_spec_witness :
    0 < 3
    ∧ (reduce_mod_step true true 3 100 2 4 4).1 = 100 * ((2 : ℚ) / 4) * (9/10)
    ∧ (reduce_mod_step true true 3 100 2 4 4).2 = 5 :=
  ⟨by decide, ((modulation_reduction_spec 100 2 4 3 4 (by decide)).1
      (by norm_num)).1,
    (((modulation_reduction_spec 100 2 4 3 4 (by decide)).1
      (by norm_num)).2.1 (by decide)).1⟩

/-- C10: the `reduce_time` phase starts, before any oracle call of the
bounded search, with `update_delivery_time(..., bypass_check=True)`,
which unconditionally commits `0.9` times the current
`MaxDeliveryTime` — also when the objective has not improved and when
the time is at or below 60 seconds. -/
theorem bypass_commit_spec (t0 obj0 : ℚ) :
    (reduce_time_init t0 obj0).beam_time = 9/10 * t0
    ∧ (reduce_time_init t0 obj0).committed = [9/10 * t0]
    ∧ (∀ bt prev cur old : ℚ, prev ≤ cur → bt ≤ 60 →
        update_delivery_time bt prev cur old true false
          = ⟨9/10 * bt, true, some (9/10 * bt)⟩) := by
  rw [reduce_time_init_eq]
  exact ⟨rfl, rfl, fun bt prev cur old _ _ => update_delivery_time_bypass bt prev cur old⟩

theorem bypass_commit_spec_witness :
    (reduce_time_init 50 10).beam_time = 9/10 * 50
    ∧ (50 : ℚ) ≤ 60 ∧ (10 : ℚ) ≤ 10
    ∧ update_delivery_time 50 10 10 50 true false = ⟨9/10 * 50, true, some (9/10 * 50)⟩ :=
  ⟨(bypass_commit_spec 50 10).1, by decide, by decide,
    (bypass_commit_spec 50 10).2.2 50 10 10 50 (by decide) (by decide)⟩

/-- C7: `run_optimization` classifies failures by substring matching on
the joined exception message — the gantry-period substring yields the
user-facing non-retryable message, anything else the generic fatal
message — returns both timestamps with `success=True` on success, and
the driver aborts (`sys.exit`) on any unsuccessful result. -/
theorem run_optimization_classification :
    (∀ parts t0 t1, str_has_sub (String.join parts) gantry_period_sub = true →
      run_optimization (OracleOutcome.errWithMessage parts) t0 t1
        = (none, none, false,
            "No feasible gantry period found. Full message: " ++ String.join parts))
    ∧ (∀ parts t0 t1, str_has_sub (String.join parts) gantry_period_sub = false →
      run_optimization (OracleOutcome.errWithMessage parts) t0 t1
        = (none, none, false,
            "Exception occurred during optimization: " ++ String.join parts))
    ∧ (∀ text t0 t1, run_optimization (OracleOutcome.errPlain text) t0 t1
        = (none, none, false, "Exception occurred during optimization: " ++ text))
    ∧ (∀ t0 t1, run_optimization OracleOutcome.ok t0 t1
        = (some t0, some t1, true, "Optimization Success"))
    ∧ (∀ outcome t0 t1, (run_optimization outcome t0 t1).2.2.1 = false →
        driver_oracle_step outcome t0 t1
          = Except.error (run_optimization outcome t0 t1).2.2.2) := by
  refine ⟨fun parts t0 t1 h => ?_, fun parts t0 t1 h => ?_,
    fun text t0 t1 => rfl, fun t0 t1 => rfl, fun outcome t0 t1 h => ?_⟩
  · simp [run_optimization, h]
  · simp [run_optimization, h]
  · simp [driver_oracle_step, h]

theorem run_optimization_classification_witness :
    str_has_sub (String.join [gantry_period_sub]) gantry_period_sub = true
    ∧ run_optimization (OracleOutcome.errWithMessage [gantry_period_sub]) 0 1
      = (none, none, false,
          "No feasible gantry period found. Full message: "
            ++ String.join [gantry_period_sub])
    ∧ run_optimization (OracleOutcome.errWithMessage ["Unknown error"]) 0 1
      = (none, none, false,
          "Exception occurred during optimization: " ++ String.join ["Unknown error"])
    ∧ driver_oracle_step (OracleOutcome.errPlain "boom") 0 1
      = Except.error (run_optimization (OracleOutcome.errPlain "boom") 0 1).2.2.2 :=
  ⟨by decide,
    run_optimization_classification.1 [gantry_period_sub] 0 1 (by decide),
    run_optimization_classification.2.1 ["Unknown error"] 0 1 (by decide),
    run_optimization_classification.2.2.2.2 (OracleOutcome.errPlain "boom") 0 1 rfl⟩

/-- C5 counterexample: for `n_iterations=3` with
`grid_sizes=[0.5,0.4,0.3,0.2]` the literal 3-iteration branch is
`[grid[0], grid[2], grid[3]] = [0.5, 0.3, 0.2]`; the schedule entry at
iteration 1 is `0.3`, not zero, refuting the claimed schedule
`{0: 0.5, 2: 0.2}` with no change at iteration 1. -/
theorem three_iteration_schedule_counterexample :
    driver_grid_schedule 3 example_delta = [1/2, 3/10, 1/5]
    ∧ (driver_grid_schedule 3 example_delta).getD 1 0 ≠ 0 := by
  have hs : driver_grid_schedule 3 example_delta = [1/2, 3/10, 1/5] := rfl
  refine ⟨hs, ?_⟩
  rw [hs]
  norm_num [List.getD]

/-- C5 amended: for `n_iterations=3`, `vary_grid=True`,
`grid_sizes=[0.5,0.4,0.3,0.2]`, the schedule is the literal branch
`[grid[0], grid[2], grid[3]] = [0.5, 0.3, 0.2]`; the driver performs
exactly 3 oracle invocations and a dose-grid change occurs immediately
before each of the three oracle calls (sizes 0.5, 0.3, 0.2). -/
theorem three_iteration_schedule_amended :
    driver_grid_schedule 3 example_delta = [1/2, 3/10, 1/5]
    ∧ iteration_driver_trace true (driver_grid_schedule 3 example_delta) 3
      = [DriverEvent.gridChange (1/2), DriverEvent.oracleCall,
          DriverEvent.gridChange (3/10), DriverEvent.oracleCall,
          DriverEvent.gridChange (1/5), DriverEvent.oracleCall]
    ∧ (iteration_driver_trace true (driver_grid_schedule 3 example_delta) 3).count
        DriverEvent.oracleCall = 3 := by
  have hs : driver_grid_schedule 3 example_delta = [1/2, 3/10, 1/5] := rfl
  have h1 : (1/2 : ℚ) ≠ 0 := by norm_num
  have h2 : (3/10 : ℚ) ≠ 0 := by norm_num
  have h3 : (1/5 : ℚ) ≠ 0 := by norm_num
  have ht : iteration_driver_trace true (driver_grid_schedule 3 example_delta) 3
      = [DriverEvent.gridChange (1/2), DriverEvent.oracleCall,
          DriverEvent.gridChange (3/10), DriverEvent.oracleCall,
          DriverEvent.gridChange (1/5), DriverEvent.oracleCall] := by
    rw [hs]
    simp [iteration_driver_trace, List.range_succ, List.getD, h1, h2, h3]
  refine ⟨hs, ht, ?_⟩
  rw [ht]
  decide

theorem getD_map_range (f : ℕ → ℚ) (n i : ℕ) (hi : i < n) :
    ((List.range n).map f).getD i 0 = f i := by
  rw [List.getD_eq_getElem?_getD, List.getElem?_map, List.getElem?_range hi]
  rfl

theorem driver_grid_schedule_of_gt (n : ℕ) (hn : 4 < n) (delta : Fin 4 → ℚ) :
    driver_grid_schedule n delta = (List.range n).map (fun i =>
      if i = 0 then delta 0
      else if i = n / 2 then delta 1
      else if i = 3 * n / 4 then delta 2
      else if i = n - 1 then delta 3
      else 0) := by
  have h1 : n ≠ 1 := by omega
  have h2 : n ≠ 2 := by omega
  have h3 : n ≠ 3 := by omega
  have h4 : n ≠ 4 := by omega
  simp [driver_grid_schedule, make_variable_grid_list, grid_adjustment_iterations,
    h1, h2, h3, h4]

/-- C4: for `n_iterations > 4` and non-zero grid sizes, the schedule
produced from the driver's adjustment iterations has length
`n_iterations`, carries `grid_sizes[j]` at checkpoint
`{0, n/2, 3n/4, n-1}[j]` (integer division), is zero at every other
index, and is non-zero exactly at the checkpoints. -/
theorem grid_schedule_shape (n : ℕ) (hn : 4 < n) (delta : Fin 4 → ℚ)
    (hnz : ∀ j, delta j ≠ 0) :
    (driver_grid_schedule n delta).length = n
    ∧ (∀ j : Fin 4, (driver_grid_schedule n delta).getD
        (grid_adjustment_iterations n j) 0 = delta j)
    ∧ (∀ i, i < n → i ≠ 0 → i ≠ n / 2 → i ≠ 3 * n / 4 → i ≠ n - 1 →
        (driver_grid_schedule n delta).getD i 0 = 0)
    ∧ (∀ i, i < n → ((driver_grid_schedule n delta).getD i 0 ≠ 0 ↔
        (i = 0 ∨ i = n / 2 ∨ i = 3 * n / 4 ∨ i = n - 1))) := by
  have hrepr := driver_grid_schedule_of_gt n hn delta
  have hv0 : (driver_grid_schedule n delta).getD 0 0 = delta 0 := by
    rw [hrepr, getD_map_range _ _ _ (by omega), if_pos rfl]
  have hv1 : (driver_grid_schedule n delta).getD (n / 2) 0 = delta 1 := by
    rw [hrepr, getD_map_range _ _ _ (by omega)]
    rw [if_neg (by omega), if_pos rfl]
  have hv2 : (driver_grid_schedule n delta).getD (3 * n / 4) 0 = delta 2 := by
    rw [hrepr, getD_map_range _ _ _ (by omega)]
    rw [if_neg (by omega), if_neg (by omega), if_pos rfl]
  have hv3 : (driver_grid_schedule n delta).getD (n - 1) 0 = delta 3 := by
    rw [hrepr, getD_map_range _ _ _ (by omega)]
    rw [if_neg (by omega), if_neg (by omega), if_neg (by omega), if_pos rfl]
  have hzero : ∀ i, i < n → i ≠ 0 → i ≠ n / 2 → i ≠ 3 * n / 4 → i ≠ n - 1 →
      (driver_grid_schedule n delta).getD i 0 = 0 := by
    intro i hi hi0 hi1 hi2 hi3
    rw [hrepr, getD_map_range _ _ _ hi]
    rw [if_neg hi0, if_neg hi1, if_neg hi2, if_neg hi3]
  refine ⟨by rw [hrepr]; simp, ?_, hzero, ?_⟩
  · intro j
    fin_cases j
    · simpa [grid_adjustment_iterations] using hv0
    · simpa [grid_adjustment_iterations] using hv1
    · simpa [grid_adjustment_iterations] using hv2
    · simpa [grid_adjustment_iterations] using hv3
  · intro i hi
    constructor
    · intro hne
      by_contra hmem
      push_neg at hmem
      exact hne (hzero i hi hmem.1 hmem.2.1 hmem.2.2.1 hmem.2.2.2)
    · rintro (rfl | rfl | rfl | rfl)
      · rw [hv0]; exact hnz 0
      · rw [hv1]; exact hnz 1
      · rw [hv2]; exact hnz 2
      · rw [hv3]; exact hnz 3

theorem grid_schedule_shape_witness :
    4 < 8
    ∧ (driver_grid_schedule 8 example_delta).length = 8
    ∧ (driver_grid_schedule 8 example_delta).getD
        (grid_adjustment_iterations 8 1) 0 = example_delta 1
    ∧ (driver_grid_schedule 8 example_delta).getD 3 0 = 0 :=
  ⟨by decide,
    (grid_schedule_shape 8 (by decide) example_delta
      (by intro j; fin_cases j <;> norm_num [example_delta])).1,
    (grid_schedule_shape 8 (by decide) example_delta
      (by intro j; fin_cases j <;> norm_num [example_delta])).2.1 1,
    (grid_schedule_shape 8 (by decide) example_delta
      (by intro j; fin_cases j <;> norm_num [example_delta])).2.2.1 3
      (by decide) (by decide) (by decide) (by decide) (by decide)⟩

theorem update_delivery_time_nonbypass (bt prev cur old : ℚ) :
    update_delivery_time bt prev cur old false false
      = if compute_delivery_time bt prev cur false < old then
          ⟨compute_delivery_time bt prev cur false, true,
            some (compute_delivery_time bt prev cur false)⟩
        else ⟨old, false, none⟩ := by
  simp [update_delivery_time]

theorem update_delivery_time_reset (bt prev cur old : ℚ) :
    update_delivery_time bt prev cur old false true
      = if compute_delivery_time bt prev cur false < old then
          ⟨compute_delivery_time bt prev cur false, true,
            some (compute_delivery_time bt prev cur false)⟩
        else ⟨old, true, some old⟩ := by
  simp [update_delivery_time]

theorem compute_delivery_time_self (bt x : ℚ) :
    compute_delivery_time bt x x false = bt := by
  simp [compute_delivery_time]

/-- The commit branch of one search step (strict reduction). -/
theorem reduce_time_step_commit_eq (s : TRState) (cur : ℚ)
    (hc : compute_delivery_time s.beam_time s.prev_obj cur false < s.beam_time) :
    reduce_time_step s cur
      = { beam_time := compute_delivery_time s.beam_time s.prev_obj cur false
          saved_time := compute_delivery_time s.beam_time s.prev_obj cur false
          prev_obj := cur
          saved_obj := cur
          committed := s.committed
            ++ [compute_delivery_time s.beam_time s.prev_obj cur false]
          iter := s.iter + 1
          bodies := s.bodies + 1 } := by
  simp only [reduce_time_step]
  rw [update_delivery_time_nonbypass]
  simp [hc]

/-- The rollback branch when the reloaded (saved) time is below the
beam time: the reset call re-commits the saved time. -/
theorem reduce_time_step_rollback_lt_eq (s : TRState) (cur : ℚ)
    (hc : ¬ compute_delivery_time s.beam_time s.prev_obj cur false < s.beam_time)
    (hsc : s.saved_time < s.beam_time) :
    reduce_time_step s cur
      = { beam_time := s.saved_time
          saved_time := s.saved_time
          prev_obj := s.saved_obj
          saved_obj := s.saved_obj
          committed := s.committed ++ [s.saved_time]
          iter := max_reduce_time_iterations + 1
          bodies := s.bodies + 1 } := by
  simp only [reduce_time_step]
  rw [update_delivery_time_nonbypass, update_delivery_time_reset,
    compute_delivery_time_self]
  simp [hc, hsc]

/-- The rollback branch in the invariant-respecting case (saved time at
or above the beam time): the reset call re-commits the old beam time. -/
theorem reduce_time_step_rollback_ge_eq (s : TRState) (cur : ℚ)
    (hc : ¬ compute_delivery_time s.beam_time s.prev_obj cur false < s.beam_time)
    (hsc : ¬ s.saved_time < s.beam_time) :
    reduce_time_step s cur
      = { beam_time := s.beam_time
          saved_time := s.saved_time
          prev_obj := s.saved_obj
          saved_obj := s.saved_obj
          committed := s.committed ++ [s.beam_time]
          iter := max_reduce_time_iterations + 1
          bodies := s.bodies + 1 } := by
  simp only [reduce_time_step]
  rw [update_delivery_time_nonbypass, update_delivery_time_reset,
    compute_delivery_time_self]
  simp [hc, hsc]

/-- One search step preserves the invariant that the last committed
value is the current beam time, and appends exactly one committed value
that does not exceed the previous beam time. -/
theorem reduce_time_step_getLast_le (s : TRState) (cur : ℚ) :
    (reduce_time_step s cur).committed.getLast?
      = some (reduce_time_step s cur).beam_time
    ∧ ∃ v, (reduce_time_step s cur).committed = s.committed ++ [v]
        ∧ v ≤ s.beam_time := by
  by_cases hc : compute_delivery_time s.beam_time s.prev_obj cur false
      < s.beam_time
  · rw [reduce_time_step_commit_eq s cur hc]
    exact ⟨by simp, compute_delivery_time s.beam_time s.prev_obj cur false,
      rfl, le_of_lt hc⟩
  · by_cases hsc : s.saved_time < s.beam_time
    · rw [reduce_time_step_rollback_lt_eq s cur hc hsc]
      exact ⟨by simp, s.saved_time, rfl, le_of_lt hsc⟩
    · rw [reduce_time_step_rollback_ge_eq s cur hc hsc]
      exact ⟨by simp, s.beam_time, rfl, le_refl _⟩

/-- Through the whole search loop, the committed log stays a
non-increasing chain whose last element is the beam time. -/
theorem reduce_time_loop_getLast (objs : List ℚ) : ∀ s : TRState,
    s.committed.getLast? = some s.beam_time →
    List.Chain' (fun a b => b ≤ a) s.committed →
    (reduce_time_loop objs s).committed.getLast?
      = some (reduce_time_loop objs s).beam_time
    ∧ List.Chain' (fun a b => b ≤ a) (reduce_time_loop objs s).committed := by
  induction objs with
  | nil => exact fun s h1 h2 => ⟨h1, h2⟩
  | cons cur rest ih =>
    intro s h1 h2
    unfold reduce_time_loop
    by_cases hg : s.iter ≤ max_reduce_time_iterations
    · rw [if_pos hg]
      obtain ⟨h1', v, hv, hvle⟩ := reduce_time_step_getLast_le s cur
      refine ih _ h1' ?_
      rw [hv]
      refine List.chain'_append.mpr ⟨h2, List.chain'_singleton v, ?_⟩
      intro x hx y hy
      rw [h1] at hx
      simp only [Option.mem_def, Option.some.injEq] at hx
      simp only [List.head?_cons, Option.mem_def, Option.some.injEq] at hy
      subst hx
      subst hy
      exact hvle
    · rw [if_neg hg]
      exact ⟨h1, h2⟩

theorem reduce_time_loop_stop (objs : List ℚ) (s : TRState)
    (h : ¬ s.iter ≤ max_reduce_time_iterations) :
    reduce_time_loop objs s = s := by
  cases objs with
  | nil => rfl
  | cons a l => simp [reduce_time_loop, h]

/-- C1: across the time-reduction search, the committed delivery-time
log is non-increasing; in the loop (no bypass, no reset) a commit
happens only for a value strictly below the old delivery time; and the
first non-reducing step takes the rollback branch, re-commits the last
committed value and terminates the loop. -/
theorem time_reduction_monotonic :
    (∀ (objs : List ℚ) (t0 obj0 : ℚ),
      List.Chain' (fun a b => b ≤ a)
        (reduce_time_loop objs (reduce_time_init t0 obj0)).committed)
    ∧ (∀ bt prev cur old v : ℚ,
        (update_delivery_time bt prev cur old false false).committed = some v →
        v < old)
    ∧ (∀ (s : TRState) (cur : ℚ), s.beam_time ≤ s.saved_time →
        s.committed.getLast? = some s.beam_time →
        (update_delivery_time s.beam_time s.prev_obj cur s.beam_time false
            false).continue_reduction = false →
        (reduce_time_step s cur).iter = max_reduce_time_iterations + 1
        ∧ (reduce_time_step s cur).committed.getLast? = s.committed.getLast?
        ∧ ∀ objs, reduce_time_loop objs (reduce_time_step s cur)
            = reduce_time_step s cur) := by
  refine ⟨fun objs t0 obj0 => ?_, fun bt prev cur old v h => ?_,
    fun s cur hbs hinv hreg => ?_⟩
  · refine (reduce_time_loop_getLast objs (reduce_time_init t0 obj0) ?_ ?_).2
    · rw [reduce_time_init_eq]
      rfl
    · rw [reduce_time_init_eq]
      exact List.chain'_singleton _
  · rw [update_delivery_time_nonbypass] at h
    by_cases hc : compute_delivery_time bt prev cur false < old
    · rw [if_pos hc] at h
      simp only [Option.some.injEq] at h
      rw [← h]
      exact hc
    · rw [if_neg hc] at h
      simp at h
  · rw [update_delivery_time_nonbypass] at hreg
    have hc : ¬ compute_delivery_time s.beam_time s.prev_obj cur false
        < s.beam_time := by
      intro hlt
      rw [if_pos hlt] at hreg
      simp at hreg
    have hsc : ¬ s.saved_time < s.beam_time := not_lt.mpr hbs
    have hstep := reduce_time_step_rollback_ge_eq s cur hc hsc
    refine ⟨by rw [hstep], ?_, fun objs => ?_⟩
    · rw [hstep, hinv]
      simp
    · refine reduce_time_loop_stop objs _ ?_
      rw [hstep]
      simp [max_reduce_time_iterations]

theorem time_reduction_monotonic_witness :
    (100 : ℚ) ≤ 100
    ∧ (⟨100, 100, 50, 50, [100], 2, 2⟩ : TRState).committed.getLast? = some 100
    ∧ (update_delivery_time 100 50 50 100 false false).continue_reduction = false
    ∧ (reduce_time_step ⟨100, 100, 50, 50, [100], 2, 2⟩ 50).iter
        = max_reduce_time_iterations + 1
    ∧ (reduce_time_step ⟨100, 100, 50, 50, [100], 2, 2⟩ 50).committed.getLast?
        = (⟨100, 100, 50, 50, [100], 2, 2⟩ : TRState).committed.getLast? :=
  ⟨by decide, by decide, by decide,
    (time_reduction_monotonic.2.2 ⟨100, 100, 50, 50, [100], 2, 2⟩ 50
      (by decide) (by decide) (by decide)).1,
    (time_reduction_monotonic.2.2 ⟨100, 100, 50, 50, [100], 2, 2⟩ 50
      (by decide) (by decide) (by decide)).2.1⟩

/-- Each executed loop body increments the body count and either
increments the iteration counter or jumps it past the cap. -/
theorem reduce_time_step_counters (s : TRState) (cur : ℚ) :
    (reduce_time_step s cur).bodies = s.bodies + 1
    ∧ ((reduce_time_step s cur).iter = s.iter + 1
        ∨ (reduce_time_step s cur).iter = max_reduce_time_iterations + 1) := by
  by_cases hc : compute_delivery_time s.beam_time s.prev_obj cur false
      < s.beam_time
  · rw [reduce_time_step_commit_eq s cur hc]
    exact ⟨rfl, Or.inl rfl⟩
  · by_cases hsc : s.saved_time < s.beam_time
    · rw [reduce_time_step_rollback_lt_eq s cur hc hsc]
      exact ⟨rfl, Or.inr rfl⟩
    · rw [reduce_time_step_rollback_ge_eq s cur hc hsc]
      exact ⟨rfl, Or.inr rfl⟩

theorem reduce_time_loop_bodies (objs : List ℚ) : ∀ s : TRState,
    s.bodies ≤ s.iter → s.iter ≤ max_reduce_time_iterations + 1 →
    (reduce_time_loop objs s).bodies ≤ (reduce_time_loop objs s).iter
    ∧ (reduce_time_loop objs s).iter ≤ max_reduce_time_iterations + 1 := by
  induction objs with
  | nil => exact fun s h1 h2 => ⟨h1, h2⟩
  | cons cur rest ih =>
    intro s h1 h2
    unfold reduce_time_loop
    by_cases hg : s.iter ≤ max_reduce_time_iterations
    · rw [if_pos hg]
      rcases reduce_time_step_counters s cur with ⟨hb, hi | hi⟩
      · exact ih _ (by omega) (by omega)
      · exact ih _ (by omega) (by omega)
    · rw [if_neg hg]
      exact ⟨h1, h2⟩

/-- C9 amended: the `reduce_time` search loop body executes at most
`max_reduce_time_iterations + 1 = 7` times (the loop condition is
`reduce_time_iteration <= max_reduce_time_iterations` with the counter
starting at 0). -/
theorem reduce_time_loop_bound (objs : List ℚ) (t0 obj0 : ℚ) :
    (reduce_time_loop objs (reduce_time_init t0 obj0)).bodies
      ≤ max_reduce_time_iterations + 1 := by
  have h := reduce_time_loop_bodies objs (reduce_time_init t0 obj0)
    (by rw [reduce_time_init_eq]) (by rw [reduce_time_init_eq]; exact Nat.zero_le _)
  exact h.1.trans h.2

/-- C9 counterexample: a run of the `reduce_time` phase in which every
oracle call improves the objective and the delivery time stays above
60 s executes the loop body 7 times, refuting the claimed cap of 6. -/
theorem reduce_time_cap_counterexample :
    max_reduce_time_iterations <
      (reduce_time_loop [90, 80, 70, 60, 50, 40, 30, 20]
        (reduce_time_init 1000 100)).bodies := by
  norm_num [reduce_time_loop, reduce_time_step, reduce_time_init,
    update_delivery_time, compute_delivery_time, max_reduce_time_iterations]

/-! ### Lemmas for the constraint-preparation phase -/

/-- `ys` has the same positions as `xs` and agrees with `xs` at every
position holding a beam with delivered MU. -/
def KeepsMU (xs ys : List BeamSettings) : Prop :=
  ys.length = xs.length ∧
  ∀ (k : ℕ) (b : BeamSettings), xs[k]? = some b → 0 < b.beamMU →
    ys[k]? = some b

theorem keepsMU_refl (xs : List BeamSettings) : KeepsMU xs xs :=
  ⟨rfl, fun _ _ hk _ => hk⟩

theorem keepsMU_trans {xs ys zs : List BeamSettings}
    (h1 : KeepsMU xs ys) (h2 : KeepsMU ys zs) : KeepsMU xs zs :=
  ⟨h1.1 ▸ h2.1, fun k b hk hmu => h2.2 k b (h1.2 k b hk hmu) hmu⟩

theorem keepsMU_cons {b b2 : BeamSettings} {rest tail : List BeamSettings}
    (hb : 0 < b.beamMU → b2 = b) (ht : KeepsMU rest tail) :
    KeepsMU (b :: rest) (b2 :: tail) := by
  refine ⟨by simp [ht.1], fun k c hk hmu => ?_⟩
  cases k with
  | zero =>
    simp only [List.getElem?_cons_zero, Option.some.injEq] at hk ⊢
    subst hk
    exact hb hmu
  | succ k =>
    simp only [List.getElem?_cons_succ] at hk ⊢
    exact ht.2 k c hk hmu

theorem keepsMU_map (f : BeamSettings → BeamSettings)
    (hf : ∀ b, 0 < b.beamMU → f b = b) (xs : List BeamSettings) :
    KeepsMU xs (xs.map f) := by
  refine ⟨by simp, fun k b hk hmu => ?_⟩
  rw [List.getElem?_map, hk]
  simp [hf b hmu]

theorem keepsMU_apply_treat_margins (u : Bool) (m : ℚ)
    (xs : List BeamSettings) : KeepsMU xs (apply_treat_margins u m xs) := by
  unfold apply_treat_margins
  by_cases hu : u = true
  · rw [if_pos hu]
    exact keepsMU_map _ (fun b hb => by simp [hb]) xs
  · rw [if_neg hu]
    exact keepsMU_refl xs

theorem keepsMU_apply_beam_split (xs : List BeamSettings) :
    KeepsMU xs (apply_beam_split xs) :=
  keepsMU_map _ (fun b hb => by simp [hb]) xs

/-- Both outcomes of the gantry-spacing loop keep MU-carrying beams. -/
def exceptList : Except (List BeamSettings) (List BeamSettings) → List BeamSettings
  | Except.ok l => l
  | Except.error l => l

theorem exceptList_except_cons (b : BeamSettings)
    (e : Except (List BeamSettings) (List BeamSettings)) :
    exceptList (except_cons b e) = b :: exceptList e := by
  cases e <;> rfl

theorem keepsMU_gantry_spacing_loop (xs : List BeamSettings) :
    KeepsMU xs (exceptList (gantry_spacing_loop xs)) := by
  induction xs with
  | nil => exact keepsMU_refl []
  | cons b rest ih =>
    unfold gantry_spacing_loop
    cases hsp : b.finalArcGantrySpacing with
    | some sp =>
      simp only [hsp]
      by_cases h2 : sp > 2
      · rw [if_pos h2]
        by_cases hmu : b.beamMU > 0
        · rw [if_pos hmu]
          exact keepsMU_refl _
        · rw [if_neg hmu, exceptList_except_cons]
          exact keepsMU_cons (fun h => absurd h hmu) ih
      · rw [if_neg h2, exceptList_except_cons]
        exact keepsMU_cons (fun _ => rfl) ih
    | none =>
      simp only [hsp]
      rw [exceptList_except_cons]
      exact keepsMU_cons (fun _ => rfl) ih

theorem keepsMU_jaw_limit_loop (xs : List BeamSettings) :
    KeepsMU xs (exceptList (jaw_limit_loop xs)) := by
  induction xs with
  | nil => exact keepsMU_refl []
  | cons b rest ih =>
    unfold jaw_limit_loop check_beam_limits
    by_cases hmu : b.beamMU > 0
    · simp only [hmu, if_true, Bool.false_eq_true, if_false]
      exact keepsMU_refl _
    · simp only [hmu, if_false, if_true, exceptList_except_cons]
      exact keepsMU_cons (fun h => absurd h hmu) ih

/-- A beam with delivered MU makes the jaw-limit loop abort. -/
theorem jaw_limit_loop_error (xs : List BeamSettings)
    (h : ∃ b ∈ xs, 0 < b.beamMU) :
    ∃ e, jaw_limit_loop xs = Except.error e := by
  induction xs with
  | nil => simp at h
  | cons b rest ih =>
    obtain ⟨c, hc, hcmu⟩ := h
    unfold jaw_limit_loop check_beam_limits
    by_cases hmu : b.beamMU > 0
    · exact ⟨b :: rest, by simp [hmu]⟩
    · have hcr : c ∈ rest := by
        rcases List.mem_cons.mp hc with rfl | hr
        · exact absurd hcmu hmu
        · exact hr
      obtain ⟨e, he⟩ := ih ⟨c, hcr, hcmu⟩
      refine ⟨{ b with jawLimit := some stx_jaw_limit } :: e, ?_⟩
      simp [hmu, he, except_cons]

/-- A beam with delivered MU and arc gantry spacing above 2 degrees
makes the gantry-spacing loop abort. -/
theorem gantry_spacing_loop_error (xs : List BeamSettings)
    (h : ∃ b ∈ xs, 0 < b.beamMU
      ∧ ∃ sp, b.finalArcGantrySpacing = some sp ∧ 2 < sp) :
    ∃ e, gantry_spacing_loop xs = Except.error e := by
  induction xs with
  | nil => simp at h
  | cons b rest ih =>
    obtain ⟨c, hc, hcmu, sp0, hcsp, hcsp2⟩ := h
    have hrest : c ∈ rest → ∃ e, gantry_spacing_loop rest = Except.error e :=
      fun hr => ih ⟨c, hr, hcmu, sp0, hcsp, hcsp2⟩
    unfold gantry_spacing_loop
    cases hsp : b.finalArcGantrySpacing with
    | some sp =>
      simp only [hsp]
      by_cases h2 : sp > 2
      · rw [if_pos h2]
        by_cases hmu : b.beamMU > 0
        · rw [if_pos hmu]
          exact ⟨b :: rest, rfl⟩
        · rw [if_neg hmu]
          have hcr : c ∈ rest := by
            rcases List.mem_cons.mp hc with rfl | hr
            · exact absurd hcmu hmu
            · exact hr
          obtain ⟨e, he⟩ := hrest hcr
          exact ⟨{ b with finalArcGantrySpacing := some 2 } :: e,
            by simp [he, except_cons]⟩
      · rw [if_neg h2]
        have hcr : c ∈ rest := by
          rcases List.mem_cons.mp hc with rfl | hr
          · rw [hsp] at hcsp
            simp only [Option.some.injEq] at hcsp
            exact absurd (hcsp ▸ hcsp2) h2
          · exact hr
        obtain ⟨e, he⟩ := hrest hcr
        exact ⟨b :: e, by simp [he, except_cons]⟩
    | none =>
      simp only [hsp]
      have hcr : c ∈ rest := by
        rcases List.mem_cons.mp hc with rfl | hr
        · rw [hsp] at hcsp
          simp at hcsp
        · exact hr
      obtain ⟨e, he⟩ := hrest hcr
      exact ⟨b :: e, by simp [he, except_cons]⟩

/-- C2: a beam carrying delivered MU on a setup that requires the
TrueBeamSTx jaw-limit retrofit (`use_treat_settings`, machine
TrueBeamSTx, SMLC or DynamicArc) or the arc gantry-spacing cap
(DynamicArc with `FinalArcGantrySpacing > 2`) makes `optimize_plan`
abort with the restart-required outcome before any oracle invocation,
and that beam's settings are left untouched. -/
theorem restart_fatality (tech : Technique)
    (use_treat_settings machine_is_stx : Bool) (m : ℚ)
    (beams : List BeamSettings) (n_iterations k : ℕ) (b : BeamSettings)
    (hk : beams[k]? = some b) (hmu : 0 < b.beamMU)
    (hcond : (use_treat_settings = true ∧ machine_is_stx = true
        ∧ (tech = Technique.SMLC ∨ tech = Technique.DynamicArc))
      ∨ (tech = Technique.DynamicArc
        ∧ ∃ sp, b.finalArcGantrySpacing = some sp ∧ 2 < sp)) :
    (optimize_plan_phase tech use_treat_settings machine_is_stx m beams
        n_iterations).1 = false
    ∧ (optimize_plan_phase tech use_treat_settings machine_is_stx m beams
        n_iterations).2.1 = restart_message
    ∧ (optimize_plan_phase tech use_treat_settings machine_is_stx m beams
        n_iterations).2.2.2 = 0
    ∧ (optimize_plan_phase tech use_treat_settings machine_is_stx m beams
        n_iterations).2.2.1[k]? = some b := by
  suffices key : ∃ e, constraint_prep tech use_treat_settings machine_is_stx
      m beams = Except.error e ∧ KeepsMU beams e by
    obtain ⟨e, he, hkm⟩ := key
    unfold optimize_plan_phase
    rw [he]
    exact ⟨rfl, rfl, rfl, hkm.2 k b hk hmu⟩
  rcases hcond with ⟨hu, hstx, htech⟩ | ⟨htech, sp, hsp, hsp2⟩
  · rcases htech with rfl | rfl
    · have hred : constraint_prep Technique.SMLC use_treat_settings
          machine_is_stx m beams
          = smlc_prep use_treat_settings machine_is_stx m beams := rfl
      rw [hred]
      unfold smlc_prep
      have hkm2 : KeepsMU beams
          (apply_beam_split (apply_treat_margins use_treat_settings m beams)) :=
        keepsMU_trans (keepsMU_apply_treat_margins _ _ _)
          (keepsMU_apply_beam_split _)
      have hb2 := hkm2.2 k b hk hmu
      obtain ⟨e, he⟩ := jaw_limit_loop_error _ ⟨b, List.getElem?_mem hb2, hmu⟩
      rw [if_pos ⟨hu, hstx⟩]
      refine ⟨e, he, keepsMU_trans hkm2 ?_⟩
      have hj := keepsMU_jaw_limit_loop
        (apply_beam_split (apply_treat_margins use_treat_settings m beams))
      rw [he] at hj
      exact hj
    · have hred : constraint_prep Technique.DynamicArc use_treat_settings
          machine_is_stx m beams
          = dynamic_arc_prep use_treat_settings machine_is_stx m beams := rfl
      rw [hred]
      have hdyn : dynamic_arc_prep use_treat_settings machine_is_stx m beams
          = match gantry_spacing_loop
              (apply_treat_margins use_treat_settings m beams) with
            | Except.error bs2 => Except.error bs2
            | Except.ok bs2 =>
              if machine_is_stx = true ∧ use_treat_settings = true then
                jaw_limit_loop bs2
              else Except.ok bs2 := rfl
      rw [hdyn]
      have hkm1 : KeepsMU beams (apply_treat_margins use_treat_settings m beams) :=
        keepsMU_apply_treat_margins _ _ _
      have hb1 := hkm1.2 k b hk hmu
      cases hg : gantry_spacing_loop (apply_treat_margins use_treat_settings m beams) with
      | error e2 =>
        refine ⟨e2, rfl, keepsMU_trans hkm1 ?_⟩
        have hgk := keepsMU_gantry_spacing_loop
          (apply_treat_margins use_treat_settings m beams)
        rw [hg] at hgk
        exact hgk
      | ok bs2 =>
        have hkm2 : KeepsMU (apply_treat_margins use_treat_settings m beams) bs2 := by
          have hgk := keepsMU_gantry_spacing_loop
            (apply_treat_margins use_treat_settings m beams)
          rw [hg] at hgk
          exact hgk
        have hb2 := hkm2.2 k b hb1 hmu
        obtain ⟨e, he⟩ := jaw_limit_loop_error _ ⟨b, List.getElem?_mem hb2, hmu⟩
        show ∃ e, (if machine_is_stx = true ∧ use_treat_settings = true then
            jaw_limit_loop bs2
          else Except.ok bs2) = Except.error e ∧ KeepsMU beams e
        rw [if_pos ⟨hstx, hu⟩]
        refine ⟨e, he, keepsMU_trans hkm1 (keepsMU_trans hkm2 ?_)⟩
        have hj := keepsMU_jaw_limit_loop bs2
        rw [he] at hj
        exact hj
  · subst htech
    have hred : constraint_prep Technique.DynamicArc use_treat_settings
        machine_is_stx m beams
        = dynamic_arc_prep use_treat_settings machine_is_stx m beams := rfl
    rw [hred]
    have hdyn : dynamic_arc_prep use_treat_settings machine_is_stx m beams
        = match gantry_spacing_loop
            (apply_treat_margins use_treat_settings m beams) with
          | Except.error bs2 => Except.error bs2
          | Except.ok bs2 =>
            if machine_is_stx = true ∧ use_treat_settings = true then
              jaw_limit_loop bs2
            else Except.ok bs2 := rfl
    rw [hdyn]
    have hkm1 : KeepsMU beams (apply_treat_margins use_treat_settings m beams) :=
      keepsMU_apply_treat_margins _ _ _
    have hb1 := hkm1.2 k b hk hmu
    obtain ⟨e, he⟩ := gantry_spacing_loop_error _
      ⟨b, List.getElem?_mem hb1, hmu, sp, hsp, hsp2⟩
    rw [he]
    refine ⟨e, rfl, keepsMU_trans hkm1 ?_⟩
    have hgk := keepsMU_gantry_spacing_loop
      (apply_treat_margins use_treat_settings m beams)
    rw [he] at hgk
    exact hgk

theorem restart_fatality_witness :
    (optimize_plan_phase Technique.DynamicArc false false 0
        [⟨1, none, true, none, some 3⟩] 12).1 = false
    ∧ (optimize_plan_phase Technique.DynamicArc false false 0
        [⟨1, none, true, none, some 3⟩] 12).2.1 = restart_message
    ∧ (optimize_plan_phase Technique.DynamicArc false false 0
        [⟨1, none, true, none, some 3⟩] 12).2.2.2 = 0
    ∧ (optimize_plan_phase Technique.DynamicArc false false 0
        [⟨1, none, true, none, some 3⟩] 12).2.2.1[0]?
      = some ⟨1, none, true, none, some 3⟩ :=
  restart_fatality Technique.DynamicArc false false 0
    [⟨1, none, true, none, some 3⟩] 12 0 ⟨1, none, true, none, some 3⟩
    rfl (by decide) (Or.inr ⟨rfl, 3, rfl, by decide⟩)

end OptimizationOperations
